import Mathlib

/-!
Shallow embedding of the MIDI output adapter of the Apollo repository
(src/platform/windows/midi.cpp, src/platform/linux/midi.cpp,
src/platform/macos/midi.cpp).

The Windows backend is modelled as pure functions over a `Platform`
oracle supplying the winmm results (`midiOutGetNumDevs`,
`midiOutGetDevCapsW`, `midiOutOpen`, `midiOutShortMsg`,
`midiOutPrepareHeader`, `midiOutLongMsg`, `midiOutUnprepareHeader`).
Each operation returns its status together with the list of log lines
it emitted and the trace of platform calls it performed, and threads
the global `midi_handle` state (`Option Nat`, `none` = nullptr)
explicitly.
-/

namespace Apollo

/-- Severity of a BOOST_LOG line. -/
inductive LogLevel
  | debug
  | info
  | warning
  | error
deriving DecidableEq

/-- One BOOST_LOG line: its severity and, when the message interpolates a
platform result code, that code. -/
structure LogEntry where
  level : LogLevel
  code : Option Nat
deriving DecidableEq

/-- One call into the winmm subsystem, as it appears in the source. -/
inductive PlatCall
  | getNumDevs
  | getDevCaps (i : Nat)
  | openDev (device_id : Nat)
  | reset
  | closeDev
  | shortMsg (msg : Nat)
  | prepare
  | longMsg
  | unprepare
deriving DecidableEq

/-- The winmm oracle: device count, per-device capability query results
(`none` = the `midiOutGetDevCapsW` call failed, `some name` = success with
that product name), and the `MMRESULT` codes returned by each fallible
call (`0` = `MMSYSERR_NOERROR`). -/
structure Platform where
  numDevs : Nat
  devCaps : Nat → Option String
  openResult : Nat → Nat
  shortMsgResult : Nat → Nat
  prepareResult : List Nat → Nat
  longMsgResult : List Nat → Nat
  unprepareResult : List Nat → Nat

/-- Device descriptor `midi_device_info_t` from src/platform/common.h:
an (id, name) pair produced by enumeration. -/
structure midi_device_info_t where
  id : Nat
  name : String
deriving DecidableEq

namespace Windows

/-- Embedding of `platf::midi_list_devices` (windows/midi.cpp lines 50-67):
query the device count, then for each index below it query the device
capabilities and keep the (index, name) pairs of the successful queries.
Returns the device list together with the platform-call trace. -/
def midi_list_devices (p : Platform) : List midi_device_info_t × List PlatCall :=
  let devices := (List.range p.numDevs).filterMap fun i =>
    (p.devCaps i).map fun n => midi_device_info_t.mk i n
  let calls := PlatCall.getNumDevs :: (List.range p.numDevs).map PlatCall.getDevCaps
  (devices, calls)

/-- Embedding of `platf::midi_close` (windows/midi.cpp lines 112-119):
when a handle is open, reset it, close it, clear the handle and log at
debug level; otherwise do nothing. -/
def midi_close (st : Option Nat) : Option Nat × List LogEntry × List PlatCall :=
  match st with
  | some _ => (none, [LogEntry.mk .debug none], [PlatCall.reset, PlatCall.closeDev])
  | none => (none, [], [])

/-- Embedding of the device-search loop of `platf::midi_open`
(windows/midi.cpp lines 81-88): scan the enumerated devices in order and
stop at the first whose name equals `device_name`. -/
def findByName (device_name : String) : List midi_device_info_t → Option midi_device_info_t
  | [] => none
  | d :: rest => if d.name = device_name then some d else findByName device_name rest

/-- Result of `platf::midi_open`: status, the new value of the global
`midi_handle` (modelled as the opened device id), log lines, and the
platform-call trace. -/
structure OpenResult where
  status : Int
  state : Option Nat
  logs : List LogEntry
  calls : List PlatCall
deriving DecidableEq

/-- Embedding of the device-selection step of `platf::midi_open`
(windows/midi.cpp lines 74-93): device id 0 by default; when the name is
neither "auto" nor empty, enumerate devices, take the first exact name
match (info log) and fall back to id 0 with a warning when none matches.
Returns the selected id, the log lines and the platform calls of the
enumeration. -/
def selectDevice (p : Platform) (device_name : String) :
    Nat × List LogEntry × List PlatCall :=
  if device_name ≠ "auto" ∧ device_name ≠ "" then
    let listed := midi_list_devices p
    match findByName device_name listed.1 with
    | some d => (d.id, [LogEntry.mk .info none], listed.2)
    | none => (0, [LogEntry.mk .warning none], listed.2)
  else (0, ([] : List LogEntry), ([] : List PlatCall))

/-- Embedding of `platf::midi_open` (windows/midi.cpp lines 69-110):
close any open handle first; select the device id (enumerating when a
concrete name was given); fail when the device count is zero; otherwise
perform the platform open, clearing the handle and logging the error
code on failure. -/
def midi_open (p : Platform) (st : Option Nat) (device_name : String) : OpenResult :=
  let closed := if st.isSome then midi_close st else (st, [], [])
  let st0 := closed.1
  let logs0 := closed.2.1
  let calls0 := closed.2.2
  let sel := selectDevice p device_name
  let device_id := sel.1
  let logs1 := sel.2.1
  let calls1 := sel.2.2
  if p.numDevs = 0 then
    OpenResult.mk (-1) st0 (logs0 ++ logs1 ++ [LogEntry.mk .warning none])
      (calls0 ++ calls1 ++ [PlatCall.getNumDevs])
  else
    let result := p.openResult device_id
    if result ≠ 0 then
      OpenResult.mk (-1) none (logs0 ++ logs1 ++ [LogEntry.mk .error (some result)])
        (calls0 ++ calls1 ++ [PlatCall.getNumDevs, PlatCall.openDev device_id])
    else
      OpenResult.mk 0 (some device_id) (logs0 ++ logs1 ++ [LogEntry.mk .info none])
        (calls0 ++ calls1 ++ [PlatCall.getNumDevs, PlatCall.openDev device_id])

/-- Result of `platf::midi_send`: status, log lines, platform-call trace. -/
structure SendResult where
  status : Int
  logs : List LogEntry
  calls : List PlatCall
deriving DecidableEq

/-- Embedding of the short-message packing of `platf::midi_send`
(windows/midi.cpp lines 133-135): `DWORD msg = data[0]`, then byte 1 is
or-ed in shifted by 8 when present, then byte 2 shifted by 16 when
present. -/
def shortWord (bytes : List Nat) : Nat :=
  let msg0 := bytes.getD 0 0
  let msg1 := if bytes.length > 1 then msg0 ||| (bytes.getD 1 0) <<< 8 else msg0
  if bytes.length > 2 then msg1 ||| (bytes.getD 2 0) <<< 16 else msg1

/-- Embedding of `platf::midi_send` (windows/midi.cpp lines 121-169).
`data = none` models a null pointer, `some bytes` a buffer of `length =
bytes.length` bytes (each < 256 by the `uint8_t` type). No handle: debug
log and -1. Empty or null payload: -1 silently. Length at most 3: pack
`shortWord` and submit one short message, warning with the code on
failure. Longer: prepare the header (warning and -1 on failure), submit
the long message, always unprepare (its result is discarded by the
source), then warning and -1 when the submission failed. -/
def midi_send (p : Platform) (st : Option Nat) (data : Option (List Nat)) : SendResult :=
  match st with
  | none => SendResult.mk (-1) [LogEntry.mk .debug none] []
  | some _ =>
    match data with
    | none => SendResult.mk (-1) [] []
    | some bytes =>
      if bytes.length = 0 then SendResult.mk (-1) [] []
      else if bytes.length ≤ 3 then
        let msg := shortWord bytes
        let result := p.shortMsgResult msg
        if result ≠ 0 then
          SendResult.mk (-1) [LogEntry.mk .warning (some result)] [PlatCall.shortMsg msg]
        else
          SendResult.mk 0 [] [PlatCall.shortMsg msg]
      else
        let result1 := p.prepareResult bytes
        if result1 ≠ 0 then
          SendResult.mk (-1) [LogEntry.mk .warning (some result1)] [PlatCall.prepare]
        else
          let result2 := p.longMsgResult bytes
          if result2 ≠ 0 then
            SendResult.mk (-1) [LogEntry.mk .warning (some result2)]
              [PlatCall.prepare, PlatCall.longMsg, PlatCall.unprepare]
          else
            SendResult.mk 0 []
              [PlatCall.prepare, PlatCall.longMsg, PlatCall.unprepare]

/-- Result code the platform returned for one call of a `midi_send`
trace, under oracle `p` with payload `bytes` (calls whose result codes
the winmm model does not distinguish are mapped to 0). -/
def callResult (p : Platform) (bytes : List Nat) : PlatCall → Nat
  | PlatCall.openDev d => p.openResult d
  | PlatCall.shortMsg w => p.shortMsgResult w
  | PlatCall.prepare => p.prepareResult bytes
  | PlatCall.longMsg => p.longMsgResult bytes
  | PlatCall.unprepare => p.unprepareResult bytes
  | _ => 0

/-- Number of live output handles represented by the global state:
`midi_handle == nullptr` is 0 live handles, otherwise 1. -/
def liveOf : Option Nat → Nat
  | none => 0
  | some _ => 1

/-- Effect of one platform call on the number of live winmm handles:
a successful `midiOutOpen` creates one, `midiOutClose` destroys one,
every other call leaves the count unchanged. -/
def liveStep (p : Platform) (l : Nat) : PlatCall → Nat
  | PlatCall.openDev d => if p.openResult d = 0 then l + 1 else l
  | PlatCall.closeDev => l - 1
  | _ => l

/-- Number of live handles after a platform-call trace, starting from
`l` live handles. -/
def liveFold (p : Platform) (l : Nat) (cs : List PlatCall) : Nat :=
  cs.foldl (liveStep p) l

/-- The at-most-one-handle invariant along a platform-call trace: the
live-handle count starts at most 1 and stays at most 1 after every call
of the trace. -/
def liveBounded (p : Platform) : Nat → List PlatCall → Prop
  | l, [] => l ≤ 1
  | l, c :: cs => l ≤ 1 ∧ liveBounded p (liveStep p l c) cs

/-- Calls that neither create nor destroy a handle. -/
def neutralCall : PlatCall → Prop
  | PlatCall.openDev _ => False
  | PlatCall.closeDev => False
  | _ => True

end Windows

namespace LinuxStub

/-- Embedding of `platf::midi_list_devices` (linux/midi.cpp lines 26-28):
always the empty vector. -/
def midi_list_devices : List midi_device_info_t := []

/-- Embedding of `platf::midi_open` (linux/midi.cpp lines 30-33): log a
warning and return -1 for every name. -/
def midi_open (_device_name : String) : Int × List LogEntry :=
  (-1, [LogEntry.mk .warning none])

/-- Embedding of `platf::midi_send` (linux/midi.cpp lines 39-42): drop
the message and return -1 for every payload. -/
def midi_send (_data : Option (List Nat)) : Int := -1

end LinuxStub

namespace MacosStub

/-- Embedding of `platf::midi_list_devices` (macos/midi.cpp lines 26-28):
always the empty vector. -/
def midi_list_devices : List midi_device_info_t := []

/-- Embedding of `platf::midi_open` (macos/midi.cpp lines 30-33): log a
warning and return -1 for every name. -/
def midi_open (_device_name : String) : Int × List LogEntry :=
  (-1, [LogEntry.mk .warning none])

/-- Embedding of `platf::midi_send` (macos/midi.cpp lines 39-42): drop
the message and return -1 for every payload. -/
def midi_send (_data : Option (List Nat)) : Int := -1

end MacosStub

/-- Concrete oracle for witnesses: one device named "A", every platform
call succeeds. -/
def pOk : Platform :=
  Platform.mk 1 (fun _ => some "A") (fun _ => 0) (fun _ => 0) (fun _ => 0) (fun _ => 0)
    (fun _ => 0)

/-- Concrete oracle with no output devices. -/
def pNoDev : Platform := { pOk with numDevs := 0 }

/-- Concrete oracle whose short-message send fails with code 7. -/
def pFailShort : Platform := { pOk with shortMsgResult := fun _ => 7 }

/-- Concrete oracle whose long-message send fails with code 3. -/
def pFailLong : Platform := { pOk with longMsgResult := fun _ => 3 }

/-- Concrete oracle whose header release fails with code 5 while every
other call succeeds. -/
def pBadUnprepare : Platform := { pOk with unprepareResult := fun _ => 5 }

/-- C9: on the stub backends (Linux and macOS), midi_list_devices always
returns an empty sequence, midi_open returns -1 for every device name
including "auto", and midi_send returns -1 unconditionally for every
payload. -/
theorem stub_backends_reject (device_name : String) (data : Option (List Nat)) :
    LinuxStub.midi_list_devices = [] ∧
    MacosStub.midi_list_devices = [] ∧
    (LinuxStub.midi_open device_name).1 = -1 ∧
    (MacosStub.midi_open device_name).1 = -1 ∧
    LinuxStub.midi_send data = -1 ∧
    MacosStub.midi_send data = -1 :=
  ⟨rfl, rfl, rfl, rfl, rfl, rfl⟩

/-- C5: on the Windows backend, midi_send returns -1 whenever no device
is open (for every payload), with at most a debug-level log and no
platform call; and with a device open it returns -1 with no log and no
platform call when the data pointer is null or the length is 0. -/
theorem midi_send_guard_failures (p : Platform) (st : Option Nat) (data : Option (List Nat)) :
    (st = none →
      (Windows.midi_send p st data).status = -1 ∧
      (Windows.midi_send p st data).calls = [] ∧
      ∀ e ∈ (Windows.midi_send p st data).logs, e.level = LogLevel.debug) ∧
    (∀ h, st = some h → data = none →
      Windows.midi_send p st data = Windows.SendResult.mk (-1) [] []) ∧
    (∀ h bytes, st = some h → data = some bytes → bytes.length = 0 →
      Windows.midi_send p st data = Windows.SendResult.mk (-1) [] []) := by
  refine ⟨fun hst => ?_, fun h hst hd => ?_, fun h bytes hst hd hlen => ?_⟩
  · subst hst
    simp [Windows.midi_send]
  · subst hst hd
    simp [Windows.midi_send]
  · subst hst hd
    simp [Windows.midi_send, hlen]

/-- C5 witness: the guard failures at concrete inputs. -/
theorem midi_send_guard_failures_witness :
    (Windows.midi_send pOk none (some [1])).status = -1 ∧
    Windows.midi_send pOk (some 0) none = Windows.SendResult.mk (-1) [] [] ∧
    Windows.midi_send pOk (some 0) (some []) = Windows.SendResult.mk (-1) [] [] :=
  ⟨((midi_send_guard_failures pOk none (some [1])).1 rfl).1,
   (midi_send_guard_failures pOk (some 0) none).2.1 0 rfl rfl,
   (midi_send_guard_failures pOk (some 0) (some [])).2.2 0 [] rfl rfl rfl⟩

/-- C6: on the Windows backend, midi_open returns -1 without attempting
the platform open call whenever the platform reports zero available
output devices, for every device name. -/
theorem midi_open_no_devices (p : Platform) (st : Option Nat) (device_name : String)
    (hdev : p.numDevs = 0) :
    (Windows.midi_open p st device_name).status = -1 ∧
    ∀ d, PlatCall.openDev d ∉ (Windows.midi_open p st device_name).calls := by
  rcases st with _ | h <;>
    by_cases hn : device_name ≠ "auto" ∧ device_name ≠ "" <;>
      simp [Windows.midi_open, Windows.selectDevice, Windows.midi_close,
        Windows.midi_list_devices, Windows.findByName, hn, hdev]

/-- C6 witness: midi_open at a concrete zero-device oracle. -/
theorem midi_open_no_devices_witness :
    (Windows.midi_open pNoDev none "auto").status = -1 ∧
    PlatCall.openDev 0 ∉ (Windows.midi_open pNoDev none "auto").calls :=
  ⟨(midi_open_no_devices pNoDev none "auto" rfl).1,
   (midi_open_no_devices pNoDev none "auto" rfl).2 0⟩

/-- Helper: or-ing a value below `2 ^ n` with a value shifted left by `n`
is addition, since the two operands occupy disjoint bit ranges. -/
theorem lor_shift_eq_add (a b n : Nat) (ha : a < 2 ^ n) :
    a ||| b <<< n = a + b * 2 ^ n := by
  rw [Nat.shiftLeft_eq, Nat.lor_comm, Nat.mul_comm b, ← Nat.mul_add_lt_is_or ha b]
  omega

/-- C1: on the Windows backend with a device open, midi_send with a
payload of 1 to 3 bytes performs exactly one short-message platform call
whose word packs the bytes little-endian: byte 0 in the low 8 bits, byte
1 in bits 8-15, byte 2 in bits 16-23, missing high bytes zero. The trace
is the same for every oracle, hence independent of the platform call's
success. -/
theorem midi_send_short_packed_word (p : Platform) (h b0 : Nat) (rest : List Nat)
    (hlen : (b0 :: rest).length ≤ 3) (hb : ∀ b ∈ b0 :: rest, b < 256) :
    (Windows.midi_send p (some h) (some (b0 :: rest))).calls =
      [PlatCall.shortMsg
        (b0 + (b0 :: rest).getD 1 0 * 256 + (b0 :: rest).getD 2 0 * 65536)] := by
  have hw : Windows.shortWord (b0 :: rest) =
      b0 + (b0 :: rest).getD 1 0 * 256 + (b0 :: rest).getD 2 0 * 65536 := by
    match rest with
    | [] => simp [Windows.shortWord]
    | [b1] =>
      have h0 : b0 < 2 ^ 8 := hb b0 (by simp)
      simp [Windows.shortWord, lor_shift_eq_add b0 b1 8 h0]
    | [b1, b2] =>
      have h0 : b0 < 2 ^ 8 := hb b0 (by simp)
      have h1 : b1 < 256 := hb b1 (by simp)
      have h8 : (2 : Nat) ^ 8 = 256 := by norm_num
      have e1 : b0 ||| b1 <<< 8 = b0 + b1 * 256 := by
        rw [lor_shift_eq_add b0 b1 8 h0, h8]
      have h01 : b0 + b1 * 256 < 2 ^ 16 := by
        have h16 : (2 : Nat) ^ 16 = 65536 := by norm_num
        omega
      have e2 : b0 + b1 * 256 ||| b2 <<< 16 = b0 + b1 * 256 + b2 * 65536 := by
        rw [lor_shift_eq_add (b0 + b1 * 256) b2 16 h01]
        norm_num
      simp [Windows.shortWord, e1, e2]
    | _ :: _ :: _ :: _ :: _ => simp at hlen
  have hne : (b0 :: rest).length ≠ 0 := by simp
  have hlen2 : rest.length ≤ 2 := by simpa using hlen
  rw [← hw]
  by_cases hres : p.shortMsgResult (Windows.shortWord (b0 :: rest)) = 0 <;>
    simp [Windows.midi_send, hlen2, hne, hres]

/-- C1 witness: the 2-byte payload 0x90 0x40 packs to the word 0x4090 on
an oracle whose short-message send fails, and the send still reports
failure status. -/
theorem midi_send_short_packed_word_witness :
    (Windows.midi_send pFailShort (some 0) (some [0x90, 0x40])).calls =
      [PlatCall.shortMsg 0x4090] ∧
    (Windows.midi_send pFailShort (some 0) (some [0x90, 0x40])).status = -1 := by
  refine ⟨?_, by decide⟩
  rw [midi_send_short_packed_word pFailShort 0 0x90 [0x40] (by decide) (by decide)]
  decide

/-- C2: on the Windows backend with a device open, midi_send with a
payload longer than 3 bytes whose header preparation succeeds performs
exactly the trace prepare, long-message submit, unprepare — so the buffer
is released exactly once, after the submission, for every oracle and in
particular whether or not the submission succeeded. -/
theorem midi_send_long_unprepare_once (p : Platform) (h : Nat) (bytes : List Nat)
    (hlen : 3 < bytes.length) (hprep : p.prepareResult bytes = 0) :
    (Windows.midi_send p (some h) (some bytes)).calls =
      [PlatCall.prepare, PlatCall.longMsg, PlatCall.unprepare] ∧
    ((Windows.midi_send p (some h) (some bytes)).calls).count PlatCall.unprepare = 1 := by
  have hne : bytes.length ≠ 0 := by omega
  have hgt : ¬ bytes.length ≤ 3 := by omega
  have hc : (Windows.midi_send p (some h) (some bytes)).calls =
      [PlatCall.prepare, PlatCall.longMsg, PlatCall.unprepare] := by
    by_cases hlong : p.longMsgResult bytes = 0 <;>
      simp [Windows.midi_send, hne, hgt, hprep, hlong]
  exact ⟨hc, by rw [hc]; decide⟩

/-- C2 witness: a 5-byte payload on an oracle whose long-message submit
fails with code 3 still releases the buffer exactly once, and the send
reports failure. -/
theorem midi_send_long_unprepare_once_witness :
    (Windows.midi_send pFailLong (some 0) (some [1, 2, 3, 4, 5])).calls =
      [PlatCall.prepare, PlatCall.longMsg, PlatCall.unprepare] ∧
    ((Windows.midi_send pFailLong (some 0) (some [1, 2, 3, 4, 5])).calls).count
      PlatCall.unprepare = 1 ∧
    (Windows.midi_send pFailLong (some 0) (some [1, 2, 3, 4, 5])).status = -1 :=
  ⟨(midi_send_long_unprepare_once pFailLong 0 [1, 2, 3, 4, 5] (by decide) rfl).1,
   (midi_send_long_unprepare_once pFailLong 0 [1, 2, 3, 4, 5] (by decide) rfl).2,
   by decide⟩

/-- C3 counterexample: with a device open and a 5-byte payload, on an
oracle where preparation and submission succeed but the unprepare call
returns code 5, a platform call on the long-message path returns a
non-zero result code, yet midi_send returns status 0 and logs nothing —
so a non-zero platform result does not always yield -1, and 0 can be
returned although not every platform call succeeded. -/
theorem midi_send_unprepare_result_ignored :
    PlatCall.unprepare ∈
      (Windows.midi_send pBadUnprepare (some 0) (some [1, 2, 3, 4, 5])).calls ∧
    Windows.callResult pBadUnprepare [1, 2, 3, 4, 5] PlatCall.unprepare = 5 ∧
    (Windows.midi_send pBadUnprepare (some 0) (some [1, 2, 3, 4, 5])).status = 0 ∧
    (Windows.midi_send pBadUnprepare (some 0) (some [1, 2, 3, 4, 5])).logs = [] := by
  decide

/-- C3 amended: on the Windows backend with a device open and a non-empty
payload, midi_send returns -1 exactly when a warning carrying a non-zero
platform error code was logged, and returns 0 exactly when every platform
call whose result the code examines on the taken path (the short-message
send for short payloads; the header preparation and long-message send for
long ones) returned 0 — the result of the unprepare call is not examined. -/
theorem midi_send_checked_failures (p : Platform) (h : Nat) (bytes : List Nat)
    (hne : bytes.length ≠ 0) :
    ((Windows.midi_send p (some h) (some bytes)).status = -1 ∨
      (Windows.midi_send p (some h) (some bytes)).status = 0) ∧
    ((Windows.midi_send p (some h) (some bytes)).status = -1 ↔
      ∃ c, c ≠ 0 ∧
        LogEntry.mk LogLevel.warning (some c) ∈
          (Windows.midi_send p (some h) (some bytes)).logs) ∧
    ((Windows.midi_send p (some h) (some bytes)).status = 0 ↔
      (if bytes.length ≤ 3 then p.shortMsgResult (Windows.shortWord bytes) = 0
       else p.prepareResult bytes = 0 ∧ p.longMsgResult bytes = 0)) := by
  by_cases h3 : bytes.length ≤ 3
  · by_cases hres : p.shortMsgResult (Windows.shortWord bytes) = 0 <;>
      simp [Windows.midi_send, hne, h3, hres]
  · by_cases hprep : p.prepareResult bytes = 0
    · by_cases hlong : p.longMsgResult bytes = 0 <;>
        simp [Windows.midi_send, hne, h3, hprep, hlong]
    · simp [Windows.midi_send, hne, h3, hprep]

/-- C3 amended witness: a failing short send yields -1 (via the logged
warning code 7) and an all-succeeding oracle yields 0. -/
theorem midi_send_checked_failures_witness :
    (Windows.midi_send pFailShort (some 0) (some [1])).status = -1 ∧
    (Windows.midi_send pOk (some 0) (some [1])).status = 0 :=
  ⟨(midi_send_checked_failures pFailShort 0 [1] (by decide)).2.1.mpr
      ⟨7, by decide, by decide⟩,
   (midi_send_checked_failures pOk 0 [1] (by decide)).2.2.mpr (by decide)⟩

/-- Helper: every branch of midi_open either succeeds with status 0 or
leaves the handle cleared. -/
theorem midi_open_status_zero_or_state_none (p : Platform) (st : Option Nat)
    (device_name : String) :
    (Windows.midi_open p st device_name).status = 0 ∨
    (Windows.midi_open p st device_name).state = none := by
  simp only [Windows.midi_open]
  split
  · right
    rcases st with _ | h <;> simp [Windows.midi_close]
  · split
    · right
      rfl
    · left
      rfl

/-- C10: on the Windows backend, whenever midi_open returns -1 the handle
is null afterward — also when a device was open before the call — and
every subsequent midi_send from that state returns -1, for every oracle
and payload. -/
theorem midi_open_failure_clears_handle (p : Platform) (st : Option Nat)
    (device_name : String)
    (hfail : (Windows.midi_open p st device_name).status = -1) :
    (Windows.midi_open p st device_name).state = none ∧
    ∀ (q : Platform) (data : Option (List Nat)),
      (Windows.midi_send q (Windows.midi_open p st device_name).state data).status = -1 := by
  have hstate : (Windows.midi_open p st device_name).state = none := by
    rcases midi_open_status_zero_or_state_none p st device_name with h0 | h1
    · rw [hfail] at h0
      exact absurd h0 (by decide)
    · exact h1
  refine ⟨hstate, fun q data => ?_⟩
  rw [hstate]
  simp [Windows.midi_send]

/-- C10 witness: a failed open at a concrete zero-device oracle, from a
previously open state, leaves the handle null and a subsequent send
fails. -/
theorem midi_open_failure_clears_handle_witness :
    (Windows.midi_open pNoDev (some 0) "auto").state = none ∧
    (Windows.midi_send pOk (Windows.midi_open pNoDev (some 0) "auto").state
      (some [1])).status = -1 :=
  ⟨(midi_open_failure_clears_handle pNoDev (some 0) "auto" (by decide)).1,
   (midi_open_failure_clears_handle pNoDev (some 0) "auto" (by decide)).2 pOk (some [1])⟩

/-- Helper: the device-search loop returns the first enumerated device
whose name matches, in the `List.find?` sense. -/
theorem findByName_eq_find (device_name : String) (l : List midi_device_info_t) :
    Windows.findByName device_name l = l.find? (fun d => d.name == device_name) := by
  induction l with
  | nil => rfl
  | cons d rest ih =>
    by_cases hd : d.name = device_name
    · rw [List.find?_cons_of_pos _ (by simp [hd])]
      simp [Windows.findByName, hd]
    · rw [List.find?_cons_of_neg _ (by simp [hd]), ← ih]
      simp [Windows.findByName, hd]

/-- Helper: with a concrete device name, the selection step performs
exactly the enumeration calls. -/
theorem selectDevice_calls (p : Platform) (device_name : String)
    (h1 : device_name ≠ "auto") (h2 : device_name ≠ "") :
    (Windows.selectDevice p device_name).2.2 = (Windows.midi_list_devices p).2 := by
  simp only [Windows.selectDevice]
  rw [if_pos ⟨h1, h2⟩]
  rcases hf : Windows.findByName device_name (Windows.midi_list_devices p).1 with _ | d <;>
    rfl

/-- Helper: selection result when the search finds a device. -/
theorem selectDevice_found (p : Platform) (device_name : String)
    (h1 : device_name ≠ "auto") (h2 : device_name ≠ "") (d : midi_device_info_t)
    (hfind : (Windows.midi_list_devices p).1.find? (fun x => x.name == device_name) = some d) :
    Windows.selectDevice p device_name =
      (d.id, [LogEntry.mk LogLevel.info none], (Windows.midi_list_devices p).2) := by
  simp only [Windows.selectDevice]
  rw [if_pos ⟨h1, h2⟩, findByName_eq_find, hfind]

/-- Helper: selection result when no device name matches. -/
theorem selectDevice_notfound (p : Platform) (device_name : String)
    (h1 : device_name ≠ "auto") (h2 : device_name ≠ "")
    (hfind : (Windows.midi_list_devices p).1.find? (fun x => x.name == device_name) = none) :
    Windows.selectDevice p device_name =
      (0, [LogEntry.mk LogLevel.warning none], (Windows.midi_list_devices p).2) := by
  simp only [Windows.selectDevice]
  rw [if_pos ⟨h1, h2⟩, findByName_eq_find, hfind]

/-- Helper: call trace of midi_open when devices are present. -/
theorem midi_open_calls (p : Platform) (st : Option Nat) (device_name : String)
    (h3 : p.numDevs ≠ 0) :
    (Windows.midi_open p st device_name).calls =
      (if st.isSome then Windows.midi_close st else (st, [], [])).2.2 ++
        (Windows.selectDevice p device_name).2.2 ++
        [PlatCall.getNumDevs, PlatCall.openDev (Windows.selectDevice p device_name).1] := by
  simp only [Windows.midi_open]
  rw [if_neg h3]
  split <;> rfl

/-- Helper: log trace of midi_open when devices are present: the close
logs, then the selection logs, then one final line. -/
theorem midi_open_logs_append (p : Platform) (st : Option Nat) (device_name : String)
    (h3 : p.numDevs ≠ 0) :
    ∃ e, (Windows.midi_open p st device_name).logs =
      (if st.isSome then Windows.midi_close st else (st, [], [])).2.1 ++
        (Windows.selectDevice p device_name).2.1 ++ [e] := by
  simp only [Windows.midi_open]
  rw [if_neg h3]
  split
  · exact ⟨_, rfl⟩
  · exact ⟨_, rfl⟩

/-- Helper: midi_open succeeds and stores the selected device when
devices are present and the platform open call succeeds. -/
theorem midi_open_success (p : Platform) (st : Option Nat) (device_name : String)
    (h3 : p.numDevs ≠ 0)
    (hop : p.openResult (Windows.selectDevice p device_name).1 = 0) :
    (Windows.midi_open p st device_name).status = 0 ∧
    (Windows.midi_open p st device_name).state =
      some (Windows.selectDevice p device_name).1 := by
  simp only [Windows.midi_open]
  rw [if_neg h3, if_neg (by simp [hop])]
  exact ⟨rfl, rfl⟩

/-- C7: on the Windows backend with at least one available device,
midi_open with a name that is neither "auto" nor empty enumerates the
devices (querying the capabilities of every index) and opens the first
whose name exactly matches; when no device matches it falls back to
device index 0, logs a warning, and still proceeds, returning status 0
and storing the handle when the platform open call succeeds. -/
theorem midi_open_named_fallback (p : Platform) (st : Option Nat) (device_name : String)
    (h1 : device_name ≠ "auto") (h2 : device_name ≠ "") (h3 : p.numDevs ≠ 0) :
    (∀ i, i < p.numDevs →
      PlatCall.getDevCaps i ∈ (Windows.midi_open p st device_name).calls) ∧
    (∀ d, (Windows.midi_list_devices p).1.find? (fun x => x.name == device_name) = some d →
      PlatCall.openDev d.id ∈ (Windows.midi_open p st device_name).calls ∧
      (p.openResult d.id = 0 →
        (Windows.midi_open p st device_name).status = 0 ∧
        (Windows.midi_open p st device_name).state = some d.id)) ∧
    ((Windows.midi_list_devices p).1.find? (fun x => x.name == device_name) = none →
      PlatCall.openDev 0 ∈ (Windows.midi_open p st device_name).calls ∧
      LogEntry.mk LogLevel.warning none ∈ (Windows.midi_open p st device_name).logs ∧
      (p.openResult 0 = 0 →
        (Windows.midi_open p st device_name).status = 0 ∧
        (Windows.midi_open p st device_name).state = some 0)) := by
  have hcalls := midi_open_calls p st device_name h3
  refine ⟨?_, ?_, ?_⟩
  · intro i hi
    have hmem : PlatCall.getDevCaps i ∈ (Windows.midi_list_devices p).2 := by
      simp [Windows.midi_list_devices, hi]
    rw [hcalls, selectDevice_calls p device_name h1 h2]
    exact List.mem_append_left _ (List.mem_append_right _ hmem)
  · intro d hfind
    have hsel := selectDevice_found p device_name h1 h2 d hfind
    constructor
    · rw [hcalls, hsel]
      simp
    · intro hop
      have hs := midi_open_success p st device_name h3 (by rw [hsel]; exact hop)
      rw [hsel] at hs
      exact hs
  · intro hfind
    have hsel := selectDevice_notfound p device_name h1 h2 hfind
    refine ⟨?_, ?_, fun hop => ?_⟩
    · rw [hcalls, hsel]
      simp
    · obtain ⟨e, he⟩ := midi_open_logs_append p st device_name h3
      rw [he, hsel]
      simp
    · have hs := midi_open_success p st device_name h3 (by rw [hsel]; exact hop)
      rw [hsel] at hs
      exact hs

/-- C7 witness: opening a nonexistent name on an oracle with one device
named "A" falls back to device 0, logs a warning and still succeeds. -/
theorem midi_open_named_fallback_witness :
    PlatCall.openDev 0 ∈ (Windows.midi_open pOk none "B").calls ∧
    LogEntry.mk LogLevel.warning none ∈ (Windows.midi_open pOk none "B").logs ∧
    (Windows.midi_open pOk none "B").status = 0 ∧
    (Windows.midi_open pOk none "B").state = some 0 := by
  have h := (midi_open_named_fallback pOk none "B" (by decide) (by decide) (by decide)).2.2
    (by decide)
  exact ⟨h.1, h.2.1, (h.2.2 rfl).1, (h.2.2 rfl).2⟩

/-- C8: on the Windows backend, midi_open with "auto" and with the empty
string are equivalent: they produce identical results (same status,
state, logs and platform calls), neither performs device enumeration (no
capability query appears in the call trace), and both select device
index 0, the platform default: when devices are present the platform
open is attempted on device id 0, and when that open succeeds the stored
handle is device 0 with status 0. -/
theorem midi_open_auto_empty_equiv (p : Platform) (st : Option Nat) :
    Windows.midi_open p st "auto" = Windows.midi_open p st "" ∧
    (∀ i, PlatCall.getDevCaps i ∉ (Windows.midi_open p st "auto").calls) ∧
    (p.numDevs ≠ 0 →
      PlatCall.openDev 0 ∈ (Windows.midi_open p st "auto").calls ∧
      (p.openResult 0 = 0 →
        (Windows.midi_open p st "auto").status = 0 ∧
        (Windows.midi_open p st "auto").state = some 0)) := by
  have hsel : Windows.selectDevice p "auto" = (0, [], []) := by
    simp [Windows.selectDevice]
  refine ⟨?_, ?_, fun h3 => ⟨?_, fun hop => ?_⟩⟩
  · simp [Windows.midi_open, Windows.selectDevice]
  · intro i
    rcases st with _ | h <;>
      by_cases hdev : p.numDevs = 0 <;>
        simp [Windows.midi_open, Windows.selectDevice, Windows.midi_close, hdev] <;>
          split <;> simp
  · rw [midi_open_calls p st "auto" h3, hsel]
    simp
  · have hs := midi_open_success p st "auto" h3 (by rw [hsel]; exact hop)
    rw [hsel] at hs
    exact hs

/-- C8 witness: at a concrete one-device oracle, "auto" and the empty
name coincide, no enumeration happens, the open is attempted on device
id 0, and it succeeds storing handle 0. -/
theorem midi_open_auto_empty_equiv_witness :
    Windows.midi_open pOk none "auto" = Windows.midi_open pOk none "" ∧
    PlatCall.getDevCaps 0 ∉ (Windows.midi_open pOk none "auto").calls ∧
    PlatCall.openDev 0 ∈ (Windows.midi_open pOk none "auto").calls ∧
    (Windows.midi_open pOk none "auto").status = 0 ∧
    (Windows.midi_open pOk none "auto").state = some 0 :=
  ⟨(midi_open_auto_empty_equiv pOk none).1,
   (midi_open_auto_empty_equiv pOk none).2.1 0,
   ((midi_open_auto_empty_equiv pOk none).2.2 (by decide)).1,
   (((midi_open_auto_empty_equiv pOk none).2.2 (by decide)).2 rfl).1,
   (((midi_open_auto_empty_equiv pOk none).2.2 (by decide)).2 rfl).2⟩

/-- Helper: a bounded trace starts within the bound. -/
theorem liveBounded_start (p : Platform) (l : Nat) (cs : List PlatCall)
    (h : Windows.liveBounded p l cs) : l ≤ 1 := by
  cases cs with
  | nil => exact h
  | cons c cs => exact h.1

/-- Helper: the handle bound over a concatenated trace splits at the
junction, the second part starting from the folded count. -/
theorem liveBounded_append (p : Platform) (xs ys : List PlatCall) (l : Nat) :
    Windows.liveBounded p l (xs ++ ys) ↔
      Windows.liveBounded p l xs ∧
        Windows.liveBounded p (Windows.liveFold p l xs) ys := by
  induction xs generalizing l with
  | nil =>
    constructor
    · intro h
      exact ⟨liveBounded_start p l ys h, h⟩
    · intro h
      exact h.2
  | cons c xs ih =>
    constructor
    · rintro ⟨hl, hrest⟩
      rcases (ih (Windows.liveStep p l c)).mp hrest with ⟨hxs, hys⟩
      exact ⟨⟨hl, hxs⟩, hys⟩
    · rintro ⟨⟨hl, hxs⟩, hys⟩
      exact ⟨hl, (ih (Windows.liveStep p l c)).mpr ⟨hxs, hys⟩⟩

/-- Helper: the folded count over a concatenated trace. -/
theorem liveFold_append (p : Platform) (xs ys : List PlatCall) (l : Nat) :
    Windows.liveFold p l (xs ++ ys) =
      Windows.liveFold p (Windows.liveFold p l xs) ys :=
  List.foldl_append _ _ _ _

/-- Helper: calls that are neither open nor close leave the count alone. -/
theorem liveStep_neutral (p : Platform) (l : Nat) (c : PlatCall)
    (hc : Windows.neutralCall c) : Windows.liveStep p l c = l := by
  cases c <;> simp_all [Windows.neutralCall, Windows.liveStep]

/-- Helper: a trace of neutral calls keeps any count within the bound. -/
theorem liveBounded_neutral (p : Platform) :
    ∀ (cs : List PlatCall), (∀ c ∈ cs, Windows.neutralCall c) →
      ∀ l, l ≤ 1 → Windows.liveBounded p l cs
  | [], _, _, hl => hl
  | c :: cs, hcs, l, hl => by
    refine ⟨hl, ?_⟩
    rw [liveStep_neutral p l c (hcs c (by simp))]
    exact liveBounded_neutral p cs (fun x hx => hcs x (by simp [hx])) l hl

/-- Helper: a trace of neutral calls leaves the folded count unchanged. -/
theorem liveFold_neutral (p : Platform) :
    ∀ (cs : List PlatCall), (∀ c ∈ cs, Windows.neutralCall c) →
      ∀ l, Windows.liveFold p l cs = l
  | [], _, _ => rfl
  | c :: cs, hcs, l => by
    show Windows.liveFold p (Windows.liveStep p l c) cs = l
    rw [liveStep_neutral p l c (hcs c (by simp))]
    exact liveFold_neutral p cs (fun x hx => hcs x (by simp [hx])) l

/-- Helper: enumeration performs only neutral calls. -/
theorem midi_list_devices_calls_neutral (p : Platform) :
    ∀ c ∈ (Windows.midi_list_devices p).2, Windows.neutralCall c := by
  intro c hc
  simp [Windows.midi_list_devices] at hc
  rcases hc with rfl | ⟨i, hi, rfl⟩ <;> trivial

/-- Helper: device selection performs only neutral calls. -/
theorem selectDevice_calls_neutral (p : Platform) (device_name : String) :
    ∀ c ∈ (Windows.selectDevice p device_name).2.2, Windows.neutralCall c := by
  intro c hc
  by_cases hn : device_name ≠ "auto" ∧ device_name ≠ ""
  · simp only [Windows.selectDevice] at hc
    rw [if_pos hn] at hc
    rcases hf : Windows.findByName device_name (Windows.midi_list_devices p).1 with _ | d <;>
      rw [hf] at hc <;>
        exact midi_list_devices_calls_neutral p c hc
  · simp only [Windows.selectDevice] at hc
    rw [if_neg hn] at hc
    simp at hc

/-- Helper: one midi_open keeps the live-handle count within 1 along its
whole trace, and the trace's final count matches the resulting state. -/
theorem midi_open_live (p : Platform) (st : Option Nat) (device_name : String) :
    Windows.liveBounded p (Windows.liveOf st) (Windows.midi_open p st device_name).calls ∧
    Windows.liveFold p (Windows.liveOf st) (Windows.midi_open p st device_name).calls =
      Windows.liveOf (Windows.midi_open p st device_name).state := by
  have hclosed : Windows.liveBounded p (Windows.liveOf st)
      (if st.isSome then Windows.midi_close st else (st, [], [])).2.2 ∧
      Windows.liveFold p (Windows.liveOf st)
        (if st.isSome then Windows.midi_close st else (st, [], [])).2.2 = 0 := by
    rcases st with _ | h <;>
      simp [Windows.midi_close, Windows.liveOf, Windows.liveBounded, Windows.liveFold,
        Windows.liveStep]
  have hneutral := selectDevice_calls_neutral p device_name
  have hcalls : (Windows.midi_open p st device_name).calls =
      (if st.isSome then Windows.midi_close st else (st, [], [])).2.2 ++
        ((Windows.selectDevice p device_name).2.2 ++
          (if p.numDevs = 0 then [PlatCall.getNumDevs]
           else [PlatCall.getNumDevs,
             PlatCall.openDev (Windows.selectDevice p device_name).1])) := by
    simp only [Windows.midi_open]
    by_cases hdev : p.numDevs = 0
    · rw [if_pos hdev, if_pos hdev]
      simp [List.append_assoc]
    · rw [if_neg hdev, if_neg hdev]
      split <;> simp [List.append_assoc]
  have hstate : Windows.liveOf (Windows.midi_open p st device_name).state =
      (if p.numDevs = 0 then 0
       else if p.openResult (Windows.selectDevice p device_name).1 = 0 then 1 else 0) := by
    simp only [Windows.midi_open]
    by_cases hdev : p.numDevs = 0
    · rw [if_pos hdev, if_pos hdev]
      rcases st with _ | h <;> rfl
    · rw [if_neg hdev, if_neg hdev]
      by_cases hop : p.openResult (Windows.selectDevice p device_name).1 = 0
      · rw [if_neg (by simp [hop]), if_pos hop]
        rfl
      · rw [if_pos hop, if_neg hop]
        rfl
  constructor
  · rw [hcalls, liveBounded_append]
    refine ⟨hclosed.1, ?_⟩
    rw [hclosed.2, liveBounded_append]
    refine ⟨liveBounded_neutral p _ hneutral 0 (by simp), ?_⟩
    rw [liveFold_neutral p _ hneutral 0]
    by_cases hdev : p.numDevs = 0
    · rw [if_pos hdev]
      exact ⟨Nat.zero_le 1, Nat.zero_le 1⟩
    · rw [if_neg hdev]
      by_cases hop : p.openResult (Windows.selectDevice p device_name).1 = 0 <;>
        simp [Windows.liveBounded, Windows.liveStep, hop]
  · rw [hcalls, hstate, liveFold_append, hclosed.2, liveFold_append,
      liveFold_neutral p _ hneutral 0]
    by_cases hdev : p.numDevs = 0
    · rw [if_pos hdev, if_pos hdev]
      simp [Windows.liveFold, Windows.liveStep]
    · rw [if_neg hdev, if_neg hdev]
      by_cases hop : p.openResult (Windows.selectDevice p device_name).1 = 0 <;>
        simp [Windows.liveFold, Windows.liveStep, hop]

/-- C4: on the Windows backend at most one output handle is live at any
time across two successive midi_open calls (the second with any name,
also a different one): starting from any state holding at most one
handle, the live-handle count stays at most 1 after every platform call
of the combined trace — the first handle is closed before the second
open. -/
theorem midi_open_twice_single_handle (p : Platform) (st : Option Nat) (n1 n2 : String) :
    Windows.liveBounded p (Windows.liveOf st)
      ((Windows.midi_open p st n1).calls ++
        (Windows.midi_open p (Windows.midi_open p st n1).state n2).calls) := by
  rw [liveBounded_append]
  refine ⟨(midi_open_live p st n1).1, ?_⟩
  rw [(midi_open_live p st n1).2]
  exact (midi_open_live p (Windows.midi_open p st n1).state n2).1

end Apollo
